import Mathlib

/-!
Shallow embedding of `neural_painters/gan_painter.py`: the WGAN-GP
neural-painter module.  Tensors are modelled as functions from `Fin`-indexed
coordinates to real numbers, shapes as explicit tuples of naturals, and the
training loop as a pure step function over an abstract parameter state.
Randomness (`torch.rand`) and automatic differentiation (`autograd.grad`)
appear as explicit inputs/oracles of the embedded functions.
-/

/- ## Shape-level semantics of the tensor operations used by the module -/

/-- Output spatial size of `nn.Conv2d` with kernel `k`, stride `s`, padding `p`. -/
def conv2dOutDim (n k s p : ℕ) : ℕ := (n + 2 * p - k) / s + 1

/-- Output spatial size of `nn.ConvTranspose2d` with kernel `k`, stride `s`, padding `p`. -/
def convTranspose2dOutDim (n k s p : ℕ) : ℕ := (n - 1) * s - 2 * p + k

/-- Shape of a rank-4 tensor `(batch, channels, height, width)`. -/
structure Shape4 where
  b : ℕ
  c : ℕ
  h : ℕ
  w : ℕ
deriving DecidableEq, Repr

/-- Shape of a rank-2 tensor `(batch, features)`. -/
structure Shape2 where
  b : ℕ
  n : ℕ
deriving DecidableEq, Repr

/-- Shape semantics of `nn.Linear(inF, outF)`: the feature dimension must match. -/
def linearShape (inF outF : ℕ) (s : Shape2) : Option Shape2 :=
  if s.n = inF then some ⟨s.b, outF⟩ else none

/-- Shape semantics of `nn.Conv2d(inC, outC, k, stride, padding)` on a square input. -/
def conv2dShape (inC outC k st p : ℕ) (s : Shape4) : Option Shape4 :=
  if s.c = inC then
    some ⟨s.b, outC, conv2dOutDim s.h k st p, conv2dOutDim s.w k st p⟩
  else none

/-- Shape semantics of `nn.ConvTranspose2d(inC, outC, k, stride, padding)`. -/
def convTranspose2dShape (inC outC k st p : ℕ) (s : Shape4) : Option Shape4 :=
  if s.c = inC then
    some ⟨s.b, outC, convTranspose2dOutDim s.h k st p, convTranspose2dOutDim s.w k st p⟩
  else none

/-- Shape semantics of `nn.BatchNorm2d(nc)`: channel count must match; shape preserved. -/
def batchNorm2dShape (nc : ℕ) (s : Shape4) : Option Shape4 :=
  if s.c = nc then some s else none

/-- Shape semantics of `x.view(-1, c, h, w)` on a rank-2 tensor: the inferred
leading dimension must divide the element count evenly. -/
def viewShape2to4 (c h w : ℕ) (s : Shape2) : Option Shape4 :=
  if c * h * w ≠ 0 ∧ c * h * w ∣ s.b * s.n then
    some ⟨s.b * s.n / (c * h * w), c, h, w⟩
  else none

/-- Shape semantics of `x.view(-1, c, h, w)` on a rank-4 tensor. -/
def viewShape4to4 (c h w : ℕ) (s : Shape4) : Option Shape4 :=
  if c * h * w ≠ 0 ∧ c * h * w ∣ s.b * s.c * s.h * s.w then
    some ⟨s.b * s.c * s.h * s.w / (c * h * w), c, h, w⟩
  else none

/-- Shape semantics of `x.flatten(start_dim=1)`. -/
def flattenShape (s : Shape4) : Shape2 := ⟨s.b, s.c * s.h * s.w⟩

/-- Broadcast of a single dimension pair under PyTorch rules. -/
def bcastDim (m n : ℕ) : Option ℕ :=
  if m = n then some m else if m = 1 then some n else if n = 1 then some m else none

/-- Shape semantics of elementwise addition `x + y` with broadcasting. -/
def broadcastAddShape (x y : Shape4) : Option Shape4 :=
  (bcastDim x.b y.b).bind fun b =>
  (bcastDim x.c y.c).bind fun c =>
  (bcastDim x.h y.h).bind fun h =>
  (bcastDim x.w y.w).bind fun w =>
  some ⟨b, c, h, w⟩

/-- Shape pipeline of `Discriminator.forward` (gan_painter.py lines 28-39):
`fc1`+`relu` on actions, `view(-1, dim, 1, 1)`, `conv1`+leaky-relu on images,
broadcast add, then three conv+batchnorm blocks, flatten, `fc2`. -/
def discriminatorShape (action_size dimv : ℕ) (images : Shape4) (actions : Shape2) :
    Option Shape2 :=
  (linearShape action_size dimv actions).bind fun a1 =>
  (viewShape2to4 dimv 1 1 a1).bind fun a2 =>
  (conv2dShape 3 dimv 4 2 1 images).bind fun x1 =>
  (broadcastAddShape x1 a2).bind fun x2 =>
  (conv2dShape dimv (dimv * 2) 4 2 1 x2).bind fun x3 =>
  (batchNorm2dShape (dimv * 2) x3).bind fun x3b =>
  (conv2dShape (dimv * 2) (dimv * 4) 4 2 1 x3b).bind fun x4 =>
  (batchNorm2dShape (dimv * 4) x4).bind fun x4b =>
  (conv2dShape (dimv * 4) (dimv * 8) 4 2 1 x4b).bind fun x5 =>
  (batchNorm2dShape (dimv * 8) x5).bind fun x5b =>
  linearShape (4 * 4 * (dimv * 8)) 1 (flattenShape x5b)

/-- Shape pipeline of `Generator.forward` (gan_painter.py lines 58-68):
`fc1`, `view(-1, dim*16, 4, 4)`, `bn1`, then four transposed-conv blocks
(batchnorm on the first three), final `view(-1, 3, 64, 64)`. -/
def generatorShape (action_size dimv : ℕ) (actions : Shape2) : Option Shape4 :=
  (linearShape action_size (4 * 4 * (dimv * 16)) actions).bind fun x1 =>
  (viewShape2to4 (dimv * 16) 4 4 x1).bind fun x2 =>
  (batchNorm2dShape (dimv * 16) x2).bind fun x2b =>
  (convTranspose2dShape (dimv * 16) (dimv * 8) 4 2 1 x2b).bind fun x3 =>
  (batchNorm2dShape (dimv * 8) x3).bind fun x3b =>
  (convTranspose2dShape (dimv * 8) (dimv * 4) 4 2 1 x3b).bind fun x4 =>
  (batchNorm2dShape (dimv * 4) x4).bind fun x4b =>
  (convTranspose2dShape (dimv * 4) (dimv * 2) 4 2 1 x4b).bind fun x5 =>
  (batchNorm2dShape (dimv * 2) x5).bind fun x5b =>
  (convTranspose2dShape (dimv * 2) 3 4 2 1 x5b).bind fun x6 =>
  viewShape4to4 3 64 64 x6

/- ## Step-kind cadence of the training loop -/

/-- Embeds the branch condition of gan_painter.py line 124:
`(batch_idx + 1) % (disc_iters + 1) == 0` selects a generator step. -/
def isGeneratorStep (batch_idx disc_iters : ℕ) : Bool :=
  (batch_idx + 1) % (disc_iters + 1) == 0

/- ## Value-level semantics of the tensor operations -/

/-- A rank-2 real tensor `(batch, features)`. -/
abbrev Mat (b n : ℕ) := Fin b → Fin n → ℝ

/-- A rank-4 real tensor `(batch, channels, height, width)`. -/
abbrev T4 (b c h w : ℕ) := Fin b → Fin c → Fin h → Fin w → ℝ

/-- Value semantics of `nn.Linear`: `y = x Wᵀ + bias`. -/
noncomputable def linearF {B inF outF : ℕ} (weight : Fin outF → Fin inF → ℝ)
    (bias : Fin outF → ℝ) (x : Mat B inF) : Mat B outF :=
  fun i o => (∑ j, x i j * weight o j) + bias o

/-- Value semantics of `F.relu`. -/
noncomputable def relu (x : ℝ) : ℝ := max x 0

/-- Value semantics of `nn.LeakyReLU(negative_slope=0.2)`. -/
noncomputable def leaky_relu (x : ℝ) : ℝ := if 0 ≤ x then x else (1 / 5) * x

/-- Value semantics of `F.sigmoid`. -/
noncomputable def sigmoid (x : ℝ) : ℝ := 1 / (1 + Real.exp (-x))

/-- Row-major index of position `(i, j, k)` inside a flattened `(c, h, w)` block. -/
def idx3 {c h w : ℕ} (i : Fin c) (j : Fin h) (k : Fin w) : Fin (c * (h * w)) :=
  ⟨((i : ℕ) * h + j) * w + k, by
    have h1 : (i : ℕ) * h + (j : ℕ) + 1 ≤ c * h := by
      calc (i : ℕ) * h + (j : ℕ) + 1 ≤ (i : ℕ) * h + h := by omega
        _ = ((i : ℕ) + 1) * h := by ring
        _ ≤ c * h := Nat.mul_le_mul_right h i.isLt
    calc ((i : ℕ) * h + j) * w + (k : ℕ) + 1 ≤ ((i : ℕ) * h + j) * w + w := by omega
      _ = ((i : ℕ) * h + (j : ℕ) + 1) * w := by ring
      _ ≤ (c * h) * w := Nat.mul_le_mul_right w h1
      _ = c * (h * w) := by ring⟩

/-- Value semantics of `x.view(-1, c, h, w)` on a rank-2 tensor whose rows hold
`c*h*w` elements in row-major order. -/
noncomputable def unflatten3 {B c h w : ℕ} (x : Mat B (c * (h * w))) : T4 B c h w :=
  fun b i j k => x b (idx3 i j k)

/-- Value semantics of `x.flatten(start_dim=1)` (also of `x.view(batch, -1)`):
row-major decoding of the flat column index. -/
noncomputable def flatten1 {B c h w : ℕ} (x : T4 B c h w) : Mat B (c * (h * w)) :=
  fun b col =>
    have hcm : 0 < c * (h * w) := lt_of_le_of_lt (Nat.zero_le _) col.isLt
    have hhw : 0 < h * w := Nat.pos_of_ne_zero (fun h0 => by simp [h0] at hcm)
    have hw : 0 < w := Nat.pos_of_ne_zero (fun h0 => by simp [h0] at hhw)
    x b ⟨(col : ℕ) / (h * w), (Nat.div_lt_iff_lt_mul hhw).mpr col.isLt⟩
      ⟨(col : ℕ) % (h * w) / w, (Nat.div_lt_iff_lt_mul hw).mpr (Nat.mod_lt _ hhw)⟩
      ⟨(col : ℕ) % w, Nat.mod_lt _ hw⟩

/-- Value semantics of `nn.Conv2d` with square kernel `k`, stride `s`, padding `p`,
on a square input of side `n`, producing a square output of side `m`: output
position `o` gathers input positions `i` with `i + p = s*o + kk`; positions that
fall into the zero padding contribute nothing. -/
noncomputable def conv2d {B cin cout n m : ℕ} (k s p : ℕ)
    (weight : Fin cout → Fin cin → Fin k → Fin k → ℝ) (bias : Fin cout → ℝ)
    (x : T4 B cin n n) : T4 B cout m m :=
  fun b oc oh ow =>
    (∑ ic : Fin cin, ∑ ih : Fin n, ∑ iw : Fin n, ∑ kh : Fin k, ∑ kw : Fin k,
      if ih.1 + p = s * oh.1 + kh.1 ∧ iw.1 + p = s * ow.1 + kw.1
      then x b ic ih iw * weight oc ic kh kw else 0) + bias oc

/-- Value semantics of `nn.ConvTranspose2d` with square kernel `k`, stride `s`,
padding `p`: output position `o` gathers input positions `i` with `o + p = s*i + kk`. -/
noncomputable def conv_transpose2d {B cin cout n m : ℕ} (k s p : ℕ)
    (weight : Fin cin → Fin cout → Fin k → Fin k → ℝ) (bias : Fin cout → ℝ)
    (x : T4 B cin n n) : T4 B cout m m :=
  fun b oc oh ow =>
    (∑ ic : Fin cin, ∑ ih : Fin n, ∑ iw : Fin n, ∑ kh : Fin k, ∑ kw : Fin k,
      if oh.1 + p = s * ih.1 + kh.1 ∧ ow.1 + p = s * iw.1 + kw.1
      then x b ic ih iw * weight ic oc kh kw else 0) + bias oc

/-- Value semantics of `nn.BatchNorm2d` in training mode: per-channel batch
statistics (biased variance), epsilon `1e-5`, learnable scale `gamma` and
shift `beta`. -/
noncomputable def batch_norm2d {B c h w : ℕ} (gamma beta : Fin c → ℝ)
    (x : T4 B c h w) : T4 B c h w :=
  fun b ch i j =>
    let n : ℝ := ((B * h * w : ℕ) : ℝ)
    let mu := (∑ b', ∑ i', ∑ j', x b' ch i' j') / n
    let v := (∑ b', ∑ i', ∑ j', (x b' ch i' j' - mu) ^ 2) / n
    gamma ch * ((x b ch i j - mu) / Real.sqrt (v + 1 / 100000)) + beta ch

/- ## The two networks -/

/-- Parameters of `Discriminator(action_size, dim)` (gan_painter.py lines 12-26). -/
structure DiscriminatorParams (A d : ℕ) where
  fc1w : Fin d → Fin A → ℝ
  fc1b : Fin d → ℝ
  c1w : Fin d → Fin 3 → Fin 4 → Fin 4 → ℝ
  c1b : Fin d → ℝ
  c2w : Fin (d * 2) → Fin d → Fin 4 → Fin 4 → ℝ
  c2b : Fin (d * 2) → ℝ
  bn2g : Fin (d * 2) → ℝ
  bn2b : Fin (d * 2) → ℝ
  c3w : Fin (d * 4) → Fin (d * 2) → Fin 4 → Fin 4 → ℝ
  c3b : Fin (d * 4) → ℝ
  bn3g : Fin (d * 4) → ℝ
  bn3b : Fin (d * 4) → ℝ
  c4w : Fin (d * 8) → Fin (d * 4) → Fin 4 → Fin 4 → ℝ
  c4b : Fin (d * 8) → ℝ
  bn4g : Fin (d * 8) → ℝ
  bn4b : Fin (d * 8) → ℝ
  fc2w : Fin 1 → Fin (d * 8 * (4 * 4)) → ℝ
  fc2b : Fin 1 → ℝ

/-- Value semantics of `Discriminator.forward` (gan_painter.py lines 28-39). -/
noncomputable def discriminator_forward {B A d : ℕ} (p : DiscriminatorParams A d)
    (images : T4 B 3 64 64) (actions : Mat B A) : Mat B 1 :=
  let a1 : Mat B d := fun b o => relu (linearF p.fc1w p.fc1b actions b o)
  let a2 : T4 B d 1 1 := fun b c _ _ => a1 b c
  let x1 : T4 B d 32 32 :=
    fun b c i j => leaky_relu ((conv2d 4 2 1 p.c1w p.c1b images : T4 B d 32 32) b c i j)
  let x2 : T4 B d 32 32 := fun b c i j => x1 b c i j + a2 b c 0 0
  let x3 : T4 B (d * 2) 16 16 :=
    fun b c i j => leaky_relu (batch_norm2d p.bn2g p.bn2b
      (conv2d 4 2 1 p.c2w p.c2b x2 : T4 B (d * 2) 16 16) b c i j)
  let x4 : T4 B (d * 4) 8 8 :=
    fun b c i j => leaky_relu (batch_norm2d p.bn3g p.bn3b
      (conv2d 4 2 1 p.c3w p.c3b x3 : T4 B (d * 4) 8 8) b c i j)
  let x5 : T4 B (d * 8) 4 4 :=
    fun b c i j => leaky_relu (batch_norm2d p.bn4g p.bn4b
      (conv2d 4 2 1 p.c4w p.c4b x4 : T4 B (d * 8) 4 4) b c i j)
  let x6 : Mat B (d * 8 * (4 * 4)) := flatten1 x5
  linearF p.fc2w p.fc2b x6

/-- Parameters of `Generator(action_size, dim)` (gan_painter.py lines 42-56). -/
structure GeneratorParams (A d : ℕ) where
  fc1w : Fin (d * 16 * (4 * 4)) → Fin A → ℝ
  fc1b : Fin (d * 16 * (4 * 4)) → ℝ
  bn1g : Fin (d * 16) → ℝ
  bn1b : Fin (d * 16) → ℝ
  dc1w : Fin (d * 16) → Fin (d * 8) → Fin 4 → Fin 4 → ℝ
  dc1b : Fin (d * 8) → ℝ
  bn2g : Fin (d * 8) → ℝ
  bn2b : Fin (d * 8) → ℝ
  dc2w : Fin (d * 8) → Fin (d * 4) → Fin 4 → Fin 4 → ℝ
  dc2b : Fin (d * 4) → ℝ
  bn3g : Fin (d * 4) → ℝ
  bn3b : Fin (d * 4) → ℝ
  dc3w : Fin (d * 4) → Fin (d * 2) → Fin 4 → Fin 4 → ℝ
  dc3b : Fin (d * 2) → ℝ
  bn4g : Fin (d * 2) → ℝ
  bn4b : Fin (d * 2) → ℝ
  dc4w : Fin (d * 2) → Fin 3 → Fin 4 → Fin 4 → ℝ
  dc4b : Fin 3 → ℝ

/-- Everything in `Generator.forward` up to and including `self.deconv4`
(gan_painter.py lines 58-66 and the pre-activation of line 67). -/
noncomputable def generator_hidden {B A d : ℕ} (p : GeneratorParams A d)
    (actions : Mat B A) : T4 B 3 64 64 :=
  let x1 : Mat B (d * 16 * (4 * 4)) := linearF p.fc1w p.fc1b actions
  let x2 : T4 B (d * 16) 4 4 := unflatten3 x1
  let x3 : T4 B (d * 16) 4 4 := fun b c i j => relu (batch_norm2d p.bn1g p.bn1b x2 b c i j)
  let x4 : T4 B (d * 8) 8 8 :=
    fun b c i j => relu (batch_norm2d p.bn2g p.bn2b
      (conv_transpose2d 4 2 1 p.dc1w p.dc1b x3 : T4 B (d * 8) 8 8) b c i j)
  let x5 : T4 B (d * 4) 16 16 :=
    fun b c i j => relu (batch_norm2d p.bn3g p.bn3b
      (conv_transpose2d 4 2 1 p.dc2w p.dc2b x4 : T4 B (d * 4) 16 16) b c i j)
  let x6 : T4 B (d * 2) 32 32 :=
    fun b c i j => relu (batch_norm2d p.bn4g p.bn4b
      (conv_transpose2d 4 2 1 p.dc3w p.dc3b x5 : T4 B (d * 2) 32 32) b c i j)
  (conv_transpose2d 4 2 1 p.dc4w p.dc4b x6 : T4 B 3 64 64)

/-- Value semantics of `Generator.forward`: sigmoid of the last transposed
convolution, followed by `view(-1, 3, 64, 64)` (a no-op on a `(B, 3, 64, 64)`
tensor). -/
noncomputable def generator_forward {B A d : ℕ} (p : GeneratorParams A d)
    (actions : Mat B A) : T4 B 3 64 64 :=
  fun b c i j => sigmoid (generator_hidden p actions b c i j)

/- ## Gradient penalty (gan_painter.py lines 71-90) -/

/-- Mean of a vector of scalars, `torch.mean` on a rank-1 tensor. -/
noncomputable def meanR {n : ℕ} (v : Fin n → ℝ) : ℝ := (∑ i, v i) / n

/-- Euclidean norm, `x.norm(2, dim=1)` applied to one row. -/
noncomputable def l2norm {n : ℕ} (v : Fin n → ℝ) : ℝ := Real.sqrt (∑ j, v j ^ 2)

/-- Value semantics of `epsilon.expand(batch_size, N)` on a `(batch_size, 1)`
tensor: the single column is repeated `N` times. -/
noncomputable def epsilon_expand {B N : ℕ} (epsilon : Fin B → ℝ) : Mat B N :=
  fun b _ => epsilon b

/-- Lines 75-77: the per-sample coefficients expanded to
`(batch_size, 3*64*64)` and then viewed as a `(batch_size, 3, 64, 64)` tensor. -/
noncomputable def epsilon_broadcast {B : ℕ} (epsilon : Fin B → ℝ) : T4 B 3 64 64 :=
  @unflatten3 B 3 64 64 (epsilon_expand epsilon)

/-- Embedding of `calc_gradient_penalty` (lines 71-90).  The random draw
`torch.rand(batch_size, 1)` is the explicit input `epsilon` (one coefficient
per sample); `autograd.grad(discriminator(interpolates, actions), interpolates,
grad_outputs=ones)` is the oracle `gradD`, a function of the interpolates with
the discriminator and the actions fixed. -/
noncomputable def calc_gradient_penalty {B : ℕ}
    (gradD : T4 B 3 64 64 → T4 B 3 64 64)
    (real_data fake_data : T4 B 3 64 64)
    (epsilon : Fin B → ℝ) (scale : ℝ) : ℝ :=
  let eps4 := epsilon_broadcast epsilon
  let interpolates : T4 B 3 64 64 :=
    fun b c i j => eps4 b c i j * real_data b c i j + (1 - eps4 b c i j) * fake_data b c i j
  let gradients := gradD interpolates
  let gview : Mat B (3 * (64 * 64)) := flatten1 gradients
  meanR (fun b => (l2norm (gview b) - 1) ^ 2) * scale

/- ## The training loop (gan_painter.py lines 93-164) -/

/-- Abstract dynamics of one training run.  `DP` and `GP` bundle a network's
parameters together with its Adam optimizer state; `dvec` is the
discriminator's per-sample critic score on a batch of size `bs`; `gen` is the
generator's forward pass; `gpenalty` is the gradient-penalty value for the
step (its per-step randomness has type `E`); `discUpdate`/`genUpdate` are the
effects of `loss.backward()` followed by `optim.step()` of the respective
Adam optimizer, each of which writes only the parameters registered with it. -/
structure GanDynamics (DP GP Img Act E : Type) where
  bs : ℕ
  dvec : DP → Img → Act → Fin bs → ℝ
  gen : GP → Act → Img
  gpenalty : DP → Img → Img → Act → E → ℝ
  discUpdate : DP → GP → Img → Act → E → DP
  genUpdate : GP → DP → Act → GP

/-- Mutable state of the training loop: the two parameter sets. -/
structure GanState (DP GP : Type) where
  discP : DP
  genP : GP

/-- One iteration of the loop body (lines 124-158): a generator step when
`(batch_idx + 1) % (disc_iters + 1) == 0`, a discriminator step otherwise.
Returns the new state and the scalar loss of the step. -/
noncomputable def gan_train_step {DP GP Img Act E : Type} (M : GanDynamics DP GP Img Act E)
    (disc_iters : ℕ) (batch_idx : ℕ) (strokes : Img) (actions : Act) (eps : E)
    (s : GanState DP GP) : GanState DP GP × ℝ :=
  if isGeneratorStep batch_idx disc_iters then
    let generated := M.gen s.genP actions
    let generated_score := meanR (M.dvec s.discP generated actions)
    let generator_loss := generated_score
    ({ s with genP := M.genUpdate s.genP s.discP actions }, generator_loss)
  else
    let real_score := meanR (M.dvec s.discP strokes actions)
    let generated := M.gen s.genP actions
    let generated_score := meanR (M.dvec s.discP generated actions)
    let gradient_penalty := M.gpenalty s.discP strokes generated actions eps
    let disc_loss := real_score - generated_score + gradient_penalty
    ({ s with discP := M.discUpdate s.discP s.genP strokes actions eps }, disc_loss)

/-- The cadence/logging configuration of `train_gan_neural_painter`. -/
structure TrainConfig where
  disc_iters : ℕ
  save_every_n_steps : ℕ
  log_every_n_steps : ℕ
  tensorboard_every_n_steps : ℕ

/-- The logging side effects of one loop iteration. -/
inductive LogEvent where
  | generatorLossE (step : ℕ)
  | discLossE (step : ℕ)
  | realScoreE (step : ℕ)
  | generatedScoreE (step : ℕ)
  | gradientPenaltyE (step : ℕ)
  | imagesE (step : ℕ)
  | consoleE (step : ℕ)
deriving DecidableEq, Repr

/-- Scalar/image/console writes of one iteration (lines 136, 155-158, 160-164). -/
def gan_step_log (cfg : TrainConfig) (batch_idx : ℕ) : List LogEvent :=
  (if isGeneratorStep batch_idx cfg.disc_iters then [.generatorLossE batch_idx]
   else [.discLossE batch_idx, .realScoreE batch_idx, .generatedScoreE batch_idx,
         .gradientPenaltyE batch_idx])
  ++ (if batch_idx % cfg.tensorboard_every_n_steps == 0 then [.imagesE batch_idx] else [])
  ++ (if batch_idx % cfg.log_every_n_steps == 0 then [.consoleE batch_idx] else [])

/-- State after `n` loop iterations, ignoring the logging side effects. -/
noncomputable def gan_run_state {DP GP Img Act E : Type} (M : GanDynamics DP GP Img Act E)
    (disc_iters : ℕ) (batches : ℕ → Img × Act) (eps : ℕ → E)
    (init : GanState DP GP) : ℕ → GanState DP GP
  | 0 => init
  | n + 1 =>
    (gan_train_step M disc_iters n (batches n).1 (batches n).2 (eps n)
      (gan_run_state M disc_iters batches eps init n)).1

/-- State and accumulated log after `n` loop iterations under a full config. -/
noncomputable def gan_run {DP GP Img Act E : Type} (M : GanDynamics DP GP Img Act E)
    (cfg : TrainConfig) (batches : ℕ → Img × Act) (eps : ℕ → E)
    (init : GanState DP GP) : ℕ → GanState DP GP × List LogEvent
  | 0 => (init, [])
  | n + 1 =>
    let prev := gan_run M cfg batches eps init n
    ((gan_train_step M cfg.disc_iters n (batches n).1 (batches n).2 (eps n) prev.1).1,
     prev.2 ++ gan_step_log cfg n)

/-- The scalar loss produced at step `n` of a run. -/
noncomputable def gan_loss_trajectory {DP GP Img Act E : Type} (M : GanDynamics DP GP Img Act E)
    (cfg : TrainConfig) (batches : ℕ → Img × Act) (eps : ℕ → E)
    (init : GanState DP GP) (n : ℕ) : ℝ :=
  (gan_train_step M cfg.disc_iters n (batches n).1 (batches n).2 (eps n)
    (gan_run M cfg batches eps init n).1).2

/- ## The autograd graph of a discriminator step (lines 142-151) -/

/-- Symbolic autograd graph of the tensors of one discriminator step.
`genOutLeaf` is `generator(actions)`, whose backward reaches the generator's
parameters; `realLeaf` is the loader batch; `detach` cuts the graph. -/
inductive GraphExpr where
  | realLeaf : GraphExpr
  | genOutLeaf : GraphExpr
  | actLeaf : GraphExpr
  | detach : GraphExpr → GraphExpr
  | discApply : GraphExpr → GraphExpr → GraphExpr
  | meanE : GraphExpr → GraphExpr
  | addE : GraphExpr → GraphExpr → GraphExpr
  | subE : GraphExpr → GraphExpr → GraphExpr
  | gpE : GraphExpr → GraphExpr → GraphExpr → GraphExpr
deriving DecidableEq, Repr

/-- Whether backpropagating from an expression computes gradients for
generator parameters: `detach` blocks the flow, every other node passes it
through to its inputs. -/
def requiresGenGrad : GraphExpr → Bool
  | .realLeaf => false
  | .genOutLeaf => true
  | .actLeaf => false
  | .detach _ => false
  | .discApply x a => requiresGenGrad x || requiresGenGrad a
  | .meanE e => requiresGenGrad e
  | .addE a b => requiresGenGrad a || requiresGenGrad b
  | .subE a b => requiresGenGrad a || requiresGenGrad b
  | .gpE r f a => requiresGenGrad r || requiresGenGrad f || requiresGenGrad a

/-- The discriminator-step loss graph of lines 142-151:
`disc_loss = mean(D(strokes, actions)) - mean(D(generator(actions), actions))
+ calc_gradient_penalty(D, strokes.detach(), generated.detach(), actions)`. -/
def disc_step_loss_graph : GraphExpr :=
  .addE
    (.subE (.meanE (.discApply .realLeaf .actLeaf))
           (.meanE (.discApply .genOutLeaf .actLeaf)))
    (.gpE (.detach .realLeaf) (.detach .genOutLeaf) .actLeaf)

/-- Scalar analogue of a discriminator step with critic `D(w, x) = w * x`,
generator output `theta` (not detached in the score term) and constant
penalty: `disc_loss = w * real - w * theta + gpval`. -/
noncomputable def disc_loss_scalar (w r theta gpval : ℝ) : ℝ := w * r - w * theta + gpval

/- ## Configuration handling before the loop (lines 93-117) -/

/-- The integer-valued configuration surface of `train_gan_neural_painter`. -/
structure TrainArgs where
  action_size : ℤ
  dim_size : ℤ
  batch_size : ℤ
  disc_iters : ℤ
  save_every_n_steps : ℤ
  log_every_n_steps : ℤ
  tensorboard_every_n_steps : ℤ

/-- All integer configuration values are positive. -/
def argsAllPositive (a : TrainArgs) : Prop :=
  0 < a.action_size ∧ 0 < a.dim_size ∧ 0 < a.batch_size ∧ 0 < a.disc_iters ∧
  0 < a.save_every_n_steps ∧ 0 < a.log_every_n_steps ∧ 0 < a.tensorboard_every_n_steps

instance (a : TrainArgs) : Decidable (argsAllPositive a) := by
  unfold argsAllPositive; infer_instance

/-- Whether the body of `train_gan_neural_painter` rejects its configuration
before entering the batch loop.  Lines 105-117 construct the data loader, the
two networks, the two Adam optimizers and the summary writer and contain no
conditional, assertion or raise on any of the integer arguments, so no
configuration is rejected. -/
def train_setup_rejects (_args : TrainArgs) : Bool := false

/-- A configuration whose `disc_iters` is non-positive and whose other values
are the source defaults. -/
def zeroDiscItersArgs : TrainArgs :=
  ⟨10, 16, 64, 0, 25000, 2000, 100⟩

/- ## Zero-weight discriminator instances -/

/-- Discriminator parameters that are all zero except the final bias `fc2b`. -/
noncomputable def constOutDiscParams (A d : ℕ) (c : ℝ) : DiscriminatorParams A d where
  fc1w := fun _ _ => 0
  fc1b := fun _ => 0
  c1w := fun _ _ _ _ => 0
  c1b := fun _ => 0
  c2w := fun _ _ _ _ => 0
  c2b := fun _ => 0
  bn2g := fun _ => 0
  bn2b := fun _ => 0
  c3w := fun _ _ _ _ => 0
  c3b := fun _ => 0
  bn3g := fun _ => 0
  bn3b := fun _ => 0
  c4w := fun _ _ _ _ => 0
  c4b := fun _ => 0
  bn4g := fun _ => 0
  bn4b := fun _ => 0
  fc2w := fun _ _ => 0
  fc2b := fun _ => c

/-- Trivial concrete dynamics used by witnesses. -/
noncomputable def trivialDyn : GanDynamics ℝ ℝ ℝ ℝ ℝ where
  bs := 1
  dvec := fun _ _ _ _ => 0
  gen := fun _ _ => 0
  gpenalty := fun _ _ _ _ _ => 0
  discUpdate := fun p _ _ _ _ => p + 1
  genUpdate := fun p _ _ => p + 1

/-- The cadence condition rephrased: the remainder of `i` modulo `d+1` is `d`. -/
theorem isGeneratorStep_iff (i d : ℕ) :
    isGeneratorStep i d = true ↔ i % (d + 1) = d := by
  have hd : 0 < d + 1 := Nat.succ_pos d
  have hsplit : i % (d + 1) + (d + 1) * (i / (d + 1)) = i := Nat.mod_add_div i (d + 1)
  have hlt : i % (d + 1) < d + 1 := Nat.mod_lt i hd
  constructor
  · intro h
    simp only [isGeneratorStep, beq_iff_eq] at h
    by_contra hne
    have hlt' : i % (d + 1) < d := lt_of_le_of_ne (Nat.lt_succ_iff.mp hlt) hne
    have h1 : i + 1 = (i % (d + 1) + 1) + (d + 1) * (i / (d + 1)) := by omega
    rw [h1, Nat.add_mul_mod_self_left, Nat.mod_eq_of_lt (by omega)] at h
    omega
  · intro h
    simp only [isGeneratorStep, beq_iff_eq]
    have h1 : i + 1 = (i % (d + 1) + 1) + (d + 1) * (i / (d + 1)) := by omega
    rw [h1, Nat.add_mul_mod_self_left, h, Nat.mod_self]

/- ## Helper lemmas -/

/-- The sigmoid is strictly positive. -/
theorem sigmoid_pos (x : ℝ) : 0 < sigmoid x := by
  unfold sigmoid
  have h := Real.exp_pos (-x)
  positivity

/-- The sigmoid is bounded by one. -/
theorem sigmoid_le_one (x : ℝ) : sigmoid x ≤ 1 := by
  unfold sigmoid
  have h := Real.exp_pos (-x)
  rw [div_le_one (by linarith)]
  linarith

/-- A `view(-1, c, h, w)` whose row length equals `c*h*w` recovers the batch
dimension. -/
theorem viewShape2to4_cancel (c h w b n : ℕ) (h0 : c * h * w ≠ 0) (hn : n = c * h * w) :
    viewShape2to4 c h w ⟨b, n⟩ = some ⟨b, c, h, w⟩ := by
  subst hn
  simp [viewShape2to4, h0, dvd_mul_left, Nat.mul_div_cancel _ (Nat.pos_of_ne_zero h0)]

/-- A discriminator whose weights are all zero and whose final bias is `c`
outputs `c` on every sample. -/
theorem discriminator_forward_constOut (A d B : ℕ) (c : ℝ) (img : T4 B 3 64 64)
    (act : Mat B A) (bi : Fin B) (o : Fin 1) :
    discriminator_forward (constOutDiscParams A d c) img act bi o = c := by
  simp [discriminator_forward, linearF, constOutDiscParams]

/-- The parameter state of a run does not depend on the logging configuration. -/
theorem gan_run_fst {DP GP Img Act E : Type} (M : GanDynamics DP GP Img Act E)
    (cfg : TrainConfig) (batches : ℕ → Img × Act) (eps : ℕ → E)
    (init : GanState DP GP) (n : ℕ) :
    (gan_run M cfg batches eps init n).1 =
      gan_run_state M cfg.disc_iters batches eps init n := by
  induction n with
  | zero => rfl
  | succ n ih => simp [gan_run, gan_run_state, ih]

/- ## Claim theorems -/

/-- C1: `calc_gradient_penalty` takes one interpolation coefficient per sample
(the `torch.rand(batch_size, 1)` draw, an explicit input here), broadcasts it
identically across all channel and spatial positions of its sample, forms the
interpolate as `coefficient * real + (1 - coefficient) * generated`, applies
the critic-gradient oracle to the interpolate, and returns the batch mean of
(per-sample Euclidean norm of the flattened gradient minus 1) squared,
multiplied by the scale. -/
theorem c1_gradient_penalty_formula (B : ℕ) (gradD : T4 B 3 64 64 → T4 B 3 64 64)
    (real_data fake_data : T4 B 3 64 64) (epsilon : Fin B → ℝ) (scale : ℝ) :
    (∀ (b : Fin B) (c : Fin 3) (i j : Fin 64) (c' : Fin 3) (i' j' : Fin 64),
      epsilon_broadcast epsilon b c i j = epsilon b ∧
      epsilon_broadcast epsilon b c i j = epsilon_broadcast epsilon b c' i' j') ∧
    calc_gradient_penalty gradD real_data fake_data epsilon scale =
      scale * ((∑ b, (l2norm (flatten1 (gradD (fun b c i j =>
          epsilon b * real_data b c i j + (1 - epsilon b) * fake_data b c i j)) b) - 1) ^ 2) / B) := by
  refine ⟨fun b c i j c' i' j' => ⟨rfl, rfl⟩, ?_⟩
  simp only [calc_gradient_penalty, epsilon_broadcast, unflatten3, epsilon_expand, meanR]
  ring

/-- C2: the training loop performs a generator step exactly when the step
index modulo `disc_iters + 1` equals `disc_iters`; with `disc_iters = 5` the
generator steps are exactly the 0-indexed steps 5, 11, 17, ... -/
theorem c2_generator_step_cadence (i d : ℕ) (hd : 0 < d) :
    (isGeneratorStep i d = true ↔ i % (d + 1) = d) ∧
    (isGeneratorStep i 5 = true ↔ ∃ k, i = 6 * k + 5) := by
  refine ⟨isGeneratorStep_iff i d, ?_⟩
  rw [isGeneratorStep_iff]
  constructor
  · intro h
    exact ⟨i / 6, by omega⟩
  · rintro ⟨k, rfl⟩
    omega

/-- Witness for C2 at `i = 5`, `disc_iters = 5`. -/
theorem c2_witness :
    0 < 5 ∧ ((isGeneratorStep 5 5 = true ↔ 5 % (5 + 1) = 5) ∧
      (isGeneratorStep 5 5 = true ↔ ∃ k, 5 = 6 * k + 5)) :=
  ⟨by decide, c2_generator_step_cadence 5 5 (by decide)⟩

/-- C3: exactly one network's parameter state changes per step: a
discriminator step leaves the generator parameters identical to their
pre-step values, and a generator step leaves the discriminator parameters
identical to their pre-step values. -/
theorem c3_parameter_update_isolation {DP GP Img Act E : Type}
    (M : GanDynamics DP GP Img Act E) (disc_iters batch_idx : ℕ)
    (strokes : Img) (actions : Act) (eps : E) (s : GanState DP GP) :
    (isGeneratorStep batch_idx disc_iters = false →
      (gan_train_step M disc_iters batch_idx strokes actions eps s).1.genP = s.genP) ∧
    (isGeneratorStep batch_idx disc_iters = true →
      (gan_train_step M disc_iters batch_idx strokes actions eps s).1.discP = s.discP) := by
  constructor <;> intro h <;> simp [gan_train_step, h]

/-- Witness for C3: a discriminator step (index 0) and a generator step
(index 5) with `disc_iters = 5`. -/
theorem c3_witness :
    (gan_train_step trivialDyn 5 0 0 0 0 ⟨0, 0⟩).1.genP = (⟨0, 0⟩ : GanState ℝ ℝ).genP ∧
    (gan_train_step trivialDyn 5 5 0 0 0 ⟨0, 0⟩).1.discP = (⟨0, 0⟩ : GanState ℝ ℝ).discP :=
  ⟨(c3_parameter_update_isolation trivialDyn 5 0 0 0 0 ⟨0, 0⟩).1 (by decide),
   (c3_parameter_update_isolation trivialDyn 5 5 0 0 0 ⟨0, 0⟩).2 (by decide)⟩

/-- C4 counterexample: in the discriminator step of lines 142-151 the critic
score entering the loss is computed on `generator(actions)` WITHOUT a
`detach()` (only the gradient-penalty arguments are detached), so
backpropagating the discriminator loss does reach generator parameters; in
the scalar analogue the generator-parameter derivative of the loss is `-1`,
not zero. -/
theorem c4_counterexample :
    requiresGenGrad disc_step_loss_graph = true ∧
    requiresGenGrad (GraphExpr.meanE (.discApply .genOutLeaf .actLeaf)) = true ∧
    deriv (fun theta => disc_loss_scalar 1 0 theta 0) 0 = -1 := by
  refine ⟨by decide, by decide, ?_⟩
  have h : (fun theta : ℝ => disc_loss_scalar 1 0 theta 0) = fun theta : ℝ => -theta := by
    funext t
    simp [disc_loss_scalar]
  rw [h]
  exact ((hasDerivAt_id (0 : ℝ)).neg).deriv

/-- C4 amended: only the gradient-penalty inputs are detached from the
generator's computation graph; the critic score entering the discriminator
loss uses the non-detached generator output, so backpropagating the
discriminator loss computes gradients for generator parameters (which the
discriminator optimizer step never applies). -/
theorem c4_amended_detachment :
    requiresGenGrad (GraphExpr.detach .genOutLeaf) = false ∧
    requiresGenGrad (GraphExpr.gpE (.detach .realLeaf) (.detach .genOutLeaf) .actLeaf) = false ∧
    requiresGenGrad (GraphExpr.meanE (.discApply .genOutLeaf .actLeaf)) = true ∧
    requiresGenGrad disc_step_loss_graph = true := by
  decide

/-- C5: on a discriminator step the loss equals the mean critic score on the
real batch minus the mean critic score on the generated batch plus the
gradient penalty; on a generator step the loss equals the mean critic score
on the images generated from the batch's action vectors. -/
theorem c5_loss_formulas {DP GP Img Act E : Type}
    (M : GanDynamics DP GP Img Act E) (disc_iters batch_idx : ℕ)
    (strokes : Img) (actions : Act) (eps : E) (s : GanState DP GP) :
    (isGeneratorStep batch_idx disc_iters = false →
      (gan_train_step M disc_iters batch_idx strokes actions eps s).2 =
        meanR (M.dvec s.discP strokes actions)
          - meanR (M.dvec s.discP (M.gen s.genP actions) actions)
          + M.gpenalty s.discP strokes (M.gen s.genP actions) actions eps) ∧
    (isGeneratorStep batch_idx disc_iters = true →
      (gan_train_step M disc_iters batch_idx strokes actions eps s).2 =
        meanR (M.dvec s.discP (M.gen s.genP actions) actions)) := by
  constructor <;> intro h <;> simp [gan_train_step, h]

/-- Witness for C5 at a discriminator step (index 0) and a generator step
(index 5) with `disc_iters = 5`. -/
theorem c5_witness :
    (gan_train_step trivialDyn 5 0 0 0 0 ⟨0, 0⟩).2 =
      meanR (trivialDyn.dvec 0 0 0) - meanR (trivialDyn.dvec 0 (trivialDyn.gen 0 0) 0)
        + trivialDyn.gpenalty 0 0 (trivialDyn.gen 0 0) 0 0 ∧
    (gan_train_step trivialDyn 5 5 0 0 0 ⟨0, 0⟩).2 =
      meanR (trivialDyn.dvec 0 (trivialDyn.gen 0 0) 0) :=
  ⟨(c5_loss_formulas trivialDyn 5 0 0 0 0 ⟨0, 0⟩).1 (by decide),
   (c5_loss_formulas trivialDyn 5 5 0 0 0 ⟨0, 0⟩).2 (by decide)⟩

/-- C6: for every valid `action_size` and `dim`, the Generator's output shape
is `(batch, 3, 64, 64)`, and every output value is the sigmoid of the last
transposed convolution's pre-activation, hence lies in `[0, 1]`. -/
theorem c6_generator_shape_and_range (a d b : ℕ) (hd : 0 < d) :
    generatorShape a d ⟨b, a⟩ = some ⟨b, 3, 64, 64⟩ ∧
    (∀ (B : ℕ) (p : GeneratorParams a d) (actions : Mat B a) (bi : Fin B) (c : Fin 3)
      (i j : Fin 64),
      generator_forward p actions bi c i j = sigmoid (generator_hidden p actions bi c i j) ∧
      0 ≤ generator_forward p actions bi c i j ∧ generator_forward p actions bi c i j ≤ 1) := by
  constructor
  · have h0 : d * 16 * 4 * 4 ≠ 0 := by omega
    have hdvd : (3 * 64 * 64 : ℕ) ∣ b * 3 * 64 * 64 := ⟨b, by ring⟩
    have hq : b * 3 * 64 * 64 / (3 * 64 * 64) = b := by
      rw [show b * 3 * 64 * 64 = b * (3 * 64 * 64) by ring]
      exact Nat.mul_div_cancel _ (by norm_num)
    simp only [generatorShape]
    rw [show linearShape a (4 * 4 * (d * 16)) ⟨b, a⟩ = some ⟨b, 4 * 4 * (d * 16)⟩ from by
      simp [linearShape]]
    rw [Option.some_bind]
    rw [viewShape2to4_cancel (d * 16) 4 4 b (4 * 4 * (d * 16)) h0 (by ring)]
    simp [batchNorm2dShape, convTranspose2dShape, convTranspose2dOutDim, viewShape4to4,
      hdvd, hq]
  · intro B p actions bi c i j
    exact ⟨rfl, le_of_lt (sigmoid_pos _), sigmoid_le_one _⟩

/-- Witness for C6 at `action_size = 10`, `dim = 16`, `batch = 2`. -/
theorem c6_witness :
    0 < 16 ∧ generatorShape 10 16 ⟨2, 10⟩ = some ⟨2, 3, 64, 64⟩ :=
  ⟨by decide, (c6_generator_shape_and_range 10 16 2 (by decide)).1⟩

/-- C7: the Discriminator maps a `(batch, 3, 64, 64)` image batch and a
`(batch, action_size)` action batch to exactly one scalar per sample, and no
bounding nonlinearity follows `fc2`: there are parameters and inputs making
the output negative and others making it greater than one. -/
theorem c7_discriminator_scalar_unbounded (a d b : ℕ) (hd : 0 < d) :
    discriminatorShape a d ⟨b, 3, 64, 64⟩ ⟨b, a⟩ = some ⟨b, 1⟩ ∧
    (∃ (p : DiscriminatorParams 1 1) (img : T4 1 3 64 64) (act : Mat 1 1) (i : Fin 1),
      discriminator_forward p img act i 0 < 0) ∧
    (∃ (p : DiscriminatorParams 1 1) (img : T4 1 3 64 64) (act : Mat 1 1) (i : Fin 1),
      1 < discriminator_forward p img act i 0) := by
  refine ⟨?_, ⟨constOutDiscParams 1 1 (-1), fun _ _ _ _ => 0, fun _ _ => 0, 0, ?_⟩,
    ⟨constOutDiscParams 1 1 2, fun _ _ _ _ => 0, fun _ _ => 0, 0, ?_⟩⟩
  · have h0 : d * 1 * 1 ≠ 0 := by omega
    simp only [discriminatorShape]
    rw [show linearShape a d ⟨b, a⟩ = some ⟨b, d⟩ from by simp [linearShape]]
    rw [Option.some_bind]
    rw [viewShape2to4_cancel d 1 1 b d h0 (by ring)]
    simp [conv2dShape, conv2dOutDim, broadcastAddShape, bcastDim, batchNorm2dShape,
      flattenShape, linearShape, show d * 8 * 4 * 4 = 4 * 4 * (d * 8) from by ring]
  · rw [discriminator_forward_constOut]
    norm_num
  · rw [discriminator_forward_constOut]
    norm_num

/-- Witness for C7 at `action_size = 10`, `dim = 16`, `batch = 2`. -/
theorem c7_witness :
    0 < 16 ∧ discriminatorShape 10 16 ⟨2, 3, 64, 64⟩ ⟨2, 10⟩ = some ⟨2, 1⟩ :=
  ⟨by decide, (c7_discriminator_scalar_unbounded 10 16 2 (by decide)).1⟩

/-- C8 counterexample: with `disc_iters = 0` (a non-positive configuration
value) the body of `train_gan_neural_painter` performs no validation, setup
is not rejected, and the first step executes normally (as a generator step)
instead of failing before the loop. -/
theorem c8_counterexample :
    ¬ argsAllPositive zeroDiscItersArgs ∧
    train_setup_rejects zeroDiscItersArgs = false ∧
    isGeneratorStep 0 0 = true := by
  refine ⟨by decide, rfl, by decide⟩

/-- C8 amended: `train_gan_neural_painter` validates none of its integer
configuration values before the loop; no non-positive value is rejected, and
with `disc_iters = 0` every step of the loop is a generator step rather than
an error. -/
theorem c8_no_validation (args : TrainArgs) :
    train_setup_rejects args = false ∧ ∀ i : ℕ, isGeneratorStep i 0 = true :=
  ⟨rfl, fun i => by simp [isGeneratorStep, Nat.mod_one]⟩

/-- C9: the loss trajectory of a run is a function of the initial parameter
state, the per-step interpolation coefficients and the batch sequence alone:
two runs agreeing on those (same seed) and on `disc_iters` produce identical
losses at every step index, whatever their logging configuration. -/
theorem c9_reproducible_trajectory {DP GP Img Act E : Type}
    (M : GanDynamics DP GP Img Act E) (cfg1 cfg2 : TrainConfig)
    (batches : ℕ → Img × Act) (eps : ℕ → E) (init : GanState DP GP)
    (hditer : cfg1.disc_iters = cfg2.disc_iters) (n : ℕ) :
    gan_loss_trajectory M cfg1 batches eps init n =
      gan_loss_trajectory M cfg2 batches eps init n := by
  unfold gan_loss_trajectory
  rw [gan_run_fst, gan_run_fst, hditer]

/-- Witness for C9: two configs differing only in logging cadences. -/
theorem c9_witness :
    gan_loss_trajectory trivialDyn ⟨5, 25000, 2000, 100⟩ (fun _ => (0, 0)) (fun _ => 0)
        ⟨0, 0⟩ 7 =
      gan_loss_trajectory trivialDyn ⟨5, 1, 1, 1⟩ (fun _ => (0, 0)) (fun _ => 0) ⟨0, 0⟩ 7 :=
  c9_reproducible_trajectory trivialDyn ⟨5, 25000, 2000, 100⟩ ⟨5, 1, 1, 1⟩
    (fun _ => (0, 0)) (fun _ => 0) ⟨0, 0⟩ rfl 7

/-- C10: for every valid `action_size` and `dim`, the Discriminator's `fc1`
projects the action batch to exactly `dim` features, `conv1` produces exactly
`dim` channels, and the broadcast addition of the reshaped `(dim, 1, 1)`
action map onto the `(dim, 32, 32)` feature map is well-shaped. -/
theorem c10_conditioning_injection_well_shaped (a d b : ℕ) (hd : 0 < d) :
    linearShape a d ⟨b, a⟩ = some ⟨b, d⟩ ∧
    conv2dShape 3 d 4 2 1 ⟨b, 3, 64, 64⟩ = some ⟨b, d, 32, 32⟩ ∧
    viewShape2to4 d 1 1 ⟨b, d⟩ = some ⟨b, d, 1, 1⟩ ∧
    broadcastAddShape ⟨b, d, 32, 32⟩ ⟨b, d, 1, 1⟩ = some ⟨b, d, 32, 32⟩ := by
  refine ⟨by simp [linearShape], by simp [conv2dShape, conv2dOutDim], ?_, ?_⟩
  · exact viewShape2to4_cancel d 1 1 b d (by omega) (by ring)
  · simp [broadcastAddShape, bcastDim]

/-- Witness for C10 at `action_size = 10`, `dim = 16`, `batch = 2`. -/
theorem c10_witness :
    0 < 16 ∧ (linearShape 10 16 ⟨2, 10⟩ = some ⟨2, 16⟩ ∧
      conv2dShape 3 16 4 2 1 ⟨2, 3, 64, 64⟩ = some ⟨2, 16, 32, 32⟩ ∧
      viewShape2to4 16 1 1 ⟨2, 16⟩ = some ⟨2, 16, 1, 1⟩ ∧
      broadcastAddShape ⟨2, 16, 32, 32⟩ ⟨2, 16, 1, 1⟩ = some ⟨2, 16, 32, 32⟩) :=
  ⟨by decide, c10_conditioning_injection_well_shaped 10 16 2 (by decide)⟩
